import Mathlib

deriving instance DecidableEq for Except

/-!
Verification of `plugin/setup_venv.py` (claude.vim), a one-shot virtual
environment provisioner.  The script is sequential orchestration over the
filesystem and two subprocesses (a probe importing `boto3`, and
`pip install -r requirements.txt`).  We embed it as a pure state
transformer over a model of the external world (`Env`), recording the
subprocess invocations performed (`Action`), the console output (`Msg`),
and the Python-level outcome (normal return vs. propagated exception).
-/

namespace SetupVenv

/-- Host operating system family, as tested by `os.name` in
`get_venv_python` (line 24): `'nt'` for Windows, anything else is
treated as Unix-like (we call it `posix`). -/
inductive OSName
  | nt
  | posix
deriving DecidableEq, Repr

/-- Model of the external world as the script observes and mutates it.

* `venvDirExists` — `venv_dir.exists()` (line 58);
* `venvPythonExists` — `venv_python.exists()` (line 61);
* `boto3Importable` — whether the probe subprocess
  `venv_python -c "import boto3; ..."` would exit 0 (lines 67–69);
* `probeSpawnError` — whether spawning the probe subprocess raises an
  OS-level error even though the interpreter file exists (e.g. the file
  is not executable or is a corrupt binary): `subprocess.run` then raises
  `OSError`, which is not `subprocess.CalledProcessError`;
* `probeVersion` — the version string the probe prints when it succeeds
  (`result.stdout.strip()`, line 70);
* `manifestExists` — `requirements_file.exists()` (line 41);
* `pipOk` — whether the installer subprocess
  `venv_python -m pip install -r requirements_file` exits 0 (lines 46–48). -/
structure Env where
  venvDirExists : Bool
  venvPythonExists : Bool
  boto3Importable : Bool
  probeSpawnError : Bool
  probeVersion : String
  manifestExists : Bool
  pipOk : Bool
deriving DecidableEq, Repr

/-- The subprocess / filesystem-mutating operations the script performs,
in the order they are issued. -/
inductive Action
  | probe
  | rmtree
  | createVenv
  | pipInstall
deriving DecidableEq, Repr

/-- Python exceptions that can escape `setup_venv`:
`subprocess.CalledProcessError` (from `check=True` on a non-zero exit)
or an `OSError` from failing to spawn a subprocess. -/
inductive PyErr
  | calledProcessError
  | osError
deriving DecidableEq, Repr

/-- Console output lines, one constructor per `print` call in the source,
carrying the dynamic parts as data. -/
inductive Msg
  | venvMissing
  | pythonMissing
  | ready (version : String)
  | boto3NotFound
  | removing
  | creating (dir : List String)
  | installingFrom (file : List String)
  | warningMissingManifest (file : List String)
  | setupComplete
  | pythonExecutable (path : List String)
  | errorSettingUp (e : PyErr)
deriving DecidableEq, Repr

/-- Paths are modelled as lists of components.  The plugin directory
(`Path(__file__).parent`, line 15) is an arbitrary parameter `pd`. -/
def get_venv_dir (pd : List String) : List String :=
  pd ++ ["venv"]

/-- `get_venv_python` (lines 21–27): interpreter location inside the
virtual environment, two layouts depending on `os.name`. -/
def get_venv_python (os : OSName) (pd : List String) : List String :=
  match os with
  | OSName.nt => get_venv_dir pd ++ ["Scripts", "python.exe"]
  | OSName.posix => get_venv_dir pd ++ ["bin", "python"]

/-- `plugin_dir.parent / "requirements.txt"` (line 38). -/
def requirements_file (pd : List String) : List String :=
  pd.dropLast ++ ["requirements.txt"]

/-- Effect of `shutil.rmtree(venv_dir)` (line 79): the directory tree,
the interpreter inside it and any installed package are gone. -/
def rmtreeEnv (e : Env) : Env :=
  { e with venvDirExists := false, venvPythonExists := false,
           boto3Importable := false }

/-- Effect of `create_venv` (lines 29–33), i.e.
`venv.create(venv_dir, with_pip=True)`: a fresh environment exists with
a working interpreter and pip, but the target package is not installed. -/
def create_venv (e : Env) : Env :=
  { e with venvDirExists := true, venvPythonExists := true,
           boto3Importable := false, probeSpawnError := false }

/-- Result of one modelled step: final world, subprocess actions issued,
console output, and the exception that escaped, if any. -/
structure StepResult where
  env : Env
  actions : List Action
  stdout : List Msg
  err : Option PyErr
deriving DecidableEq, Repr

/-- `install_requirements` (lines 35–48).  If the manifest is missing a
warning is printed and the step is a no-op; otherwise
`pip install -r` runs with `check=True`, raising
`CalledProcessError` on a non-zero exit.

Modelled from the spec: the Manifest File lists the required packages
(spec §3, "a sibling file ... listing required packages"), and the
repository's `requirements.txt` itself is not under `src/`; hence a
successful installer run is modelled as making the required package
(`boto3`) importable. -/
def install_requirements (pd : List String) (e : Env) : StepResult :=
  if e.manifestExists = false then
    { env := e, actions := [],
      stdout := [Msg.warningMissingManifest (requirements_file pd)],
      err := none }
  else if e.pipOk then
    { env := { e with boto3Importable := true },
      actions := [Action.pipInstall],
      stdout := [Msg.installingFrom (requirements_file pd)],
      err := none }
  else
    { env := e, actions := [Action.pipInstall],
      stdout := [Msg.installingFrom (requirements_file pd)],
      err := some PyErr.calledProcessError }

/-- Result of a whole `setup_venv` call: final world, actions, console
output, and either the returned interpreter path or the escaped
exception. -/
structure RunResult where
  env : Env
  actions : List Action
  stdout : List Msg
  result : Except PyErr (List String)
deriving DecidableEq, Repr

/-- The `if needs_setup:` block of `setup_venv` (lines 75–83): purge any
existing directory, create a fresh environment, install requirements,
print the completion message, then fall through to the return.
`acts0`/`out0` are the actions and output accumulated while deciding
readiness. -/
def recreatePhase (os : OSName) (pd : List String) (e : Env)
    (acts0 : List Action) (out0 : List Msg) : RunResult :=
  let removed :=
    if e.venvDirExists then
      (rmtreeEnv e, acts0 ++ [Action.rmtree], out0 ++ [Msg.removing])
    else
      (e, acts0, out0)
  let e1 := removed.1
  let acts1 := removed.2.1
  let out1 := removed.2.2
  let e2 := create_venv e1
  let acts2 := acts1 ++ [Action.createVenv]
  let out2 := out1 ++ [Msg.creating (get_venv_dir pd)]
  let ir := install_requirements pd e2
  match ir.err with
  | none =>
    { env := ir.env, actions := acts2 ++ ir.actions,
      stdout := out2 ++ ir.stdout ++ [Msg.setupComplete],
      result := Except.ok (get_venv_python os pd) }
  | some er =>
    { env := ir.env, actions := acts2 ++ ir.actions,
      stdout := out2 ++ ir.stdout,
      result := Except.error er }

/-- `setup_venv` (lines 50–85).  Readiness determination: missing
directory, missing interpreter, or a probe subprocess exiting non-zero
(caught `CalledProcessError`) set `needs_setup`; a successful probe
short-circuits to the return.  An OS-level spawn error of the probe is
not caught and escapes.  The call returns the interpreter path. -/
def setup_venv (os : OSName) (pd : List String) (e : Env) : RunResult :=
  let venv_python := get_venv_python os pd
  if e.venvDirExists = false then
    recreatePhase os pd e [] [Msg.venvMissing]
  else if e.venvPythonExists = false then
    recreatePhase os pd e [] [Msg.pythonMissing]
  else if e.probeSpawnError then
    { env := e, actions := [Action.probe], stdout := [],
      result := Except.error PyErr.osError }
  else if e.boto3Importable then
    { env := e, actions := [Action.probe],
      stdout := [Msg.ready e.probeVersion],
      result := Except.ok venv_python }
  else
    recreatePhase os pd e [Action.probe] [Msg.boto3NotFound]

/-- Outcome of running the script as `__main__` (lines 87–93): exit
code, standard output and standard error. -/
structure MainResult where
  exitCode : Nat
  stdout : List Msg
  stderr : List Msg
deriving DecidableEq, Repr

/-- The `__main__` block (lines 87–93): on a normal return of
`setup_venv` print the interpreter path and exit 0; on any exception
print an error to stderr and exit 1. -/
def mainRun (os : OSName) (pd : List String) (e : Env) : MainResult :=
  let r := setup_venv os pd e
  match r.result with
  | Except.ok p =>
    { exitCode := 0, stdout := r.stdout ++ [Msg.pythonExecutable p],
      stderr := [] }
  | Except.error er =>
    { exitCode := 1, stdout := r.stdout,
      stderr := [Msg.errorSettingUp er] }

/-- The condition under which `setup_venv` reaches the rebuild block
(`needs_setup = True` at line 75): missing directory, missing
interpreter, or a probe that runs (no spawn error) and exits non-zero. -/
def needs_setup (e : Env) : Bool :=
  !e.venvDirExists || !e.venvPythonExists ||
    (!e.probeSpawnError && !e.boto3Importable)

/-- `true` iff some `probe` action occurs after some `createVenv`
action in the trace. -/
def probeAfterCreate : List Action → Bool
  | [] => false
  | Action.createVenv :: rest => rest.contains Action.probe || probeAfterCreate rest
  | _ :: rest => probeAfterCreate rest

/-- `true` iff the message is the missing-manifest warning (line 42). -/
def isWarning : Msg → Bool
  | Msg.warningMissingManifest _ => true
  | _ => false

/-- C1: for every normal (non-exception) return of `setup_venv`, the
environment directory and the interpreter inside it exist, and — when
the manifest file was present — the required package (`boto3`) is
importable via that interpreter.  When the manifest was missing only
existence is guaranteed. -/
theorem setup_venv_normal_return_invariant (os : OSName) (pd : List String)
    (e : Env) (p : List String)
    (h : (setup_venv os pd e).result = Except.ok p) :
    (setup_venv os pd e).env.venvDirExists = true ∧
    (setup_venv os pd e).env.venvPythonExists = true ∧
    (e.manifestExists = true → (setup_venv os pd e).env.boto3Importable = true) := by
  rcases e with ⟨d, py, b3, se, ver, mf, pip⟩
  cases d <;> cases py <;> cases b3 <;> cases se <;> cases mf <;> cases pip <;>
    simp_all [setup_venv, recreatePhase, install_requirements, create_venv, rmtreeEnv]

/-- Witness for C1 at a concrete ready environment. -/
theorem setup_venv_normal_return_invariant_witness :
    (setup_venv OSName.posix ["p"] ⟨true, true, true, false, "1.0", true, true⟩).env.venvDirExists = true ∧
    (setup_venv OSName.posix ["p"] ⟨true, true, true, false, "1.0", true, true⟩).env.venvPythonExists = true ∧
    ((⟨true, true, true, false, "1.0", true, true⟩ : Env).manifestExists = true →
      (setup_venv OSName.posix ["p"] ⟨true, true, true, false, "1.0", true, true⟩).env.boto3Importable = true) :=
  setup_venv_normal_return_invariant OSName.posix ["p"]
    ⟨true, true, true, false, "1.0", true, true⟩
    ["p", "venv", "bin", "python"] (by decide)

/-- C2: if the installer subprocess exits non-zero (in a run that
reaches the rebuild block), the process exits 1, the error message is
printed to the error stream, and "setup complete" is never printed. -/
theorem pip_failure_aborts (os : OSName) (pd : List String) (e : Env)
    (hm : e.manifestExists = true) (hp : e.pipOk = false)
    (hn : needs_setup e = true) :
    (mainRun os pd e).exitCode = 1 ∧
    (mainRun os pd e).stderr = [Msg.errorSettingUp PyErr.calledProcessError] ∧
    Msg.setupComplete ∉ (mainRun os pd e).stdout := by
  rcases e with ⟨d, py, b3, se, ver, mf, pip⟩
  cases d <;> cases py <;> cases b3 <;> cases se <;> cases mf <;> cases pip <;>
    simp_all [mainRun, setup_venv, recreatePhase, install_requirements,
      create_venv, rmtreeEnv, needs_setup]

/-- Witness for C2: empty state, manifest present, installer failing. -/
theorem pip_failure_aborts_witness :
    (mainRun OSName.posix ["p"] ⟨false, false, false, false, "", true, false⟩).exitCode = 1 ∧
    (mainRun OSName.posix ["p"] ⟨false, false, false, false, "", true, false⟩).stderr =
      [Msg.errorSettingUp PyErr.calledProcessError] ∧
    Msg.setupComplete ∉ (mainRun OSName.posix ["p"] ⟨false, false, false, false, "", true, false⟩).stdout :=
  pip_failure_aborts OSName.posix ["p"] ⟨false, false, false, false, "", true, false⟩
    (by decide) (by decide) (by decide)

/-- Counterexample for C3 as stated: with no manifest file, a first
call from the empty state succeeds (environment created, installation
skipped with a warning), yet the second call finds `boto3` missing,
deletes the directory and recreates it — so the second call is not
free of deletion and recreation. -/
theorem setup_venv_second_call_recreates_without_manifest :
    (setup_venv OSName.posix ["p"] ⟨false, false, false, false, "", false, true⟩).result =
      Except.ok ["p", "venv", "bin", "python"] ∧
    Action.rmtree ∈ (setup_venv OSName.posix ["p"]
      (setup_venv OSName.posix ["p"] ⟨false, false, false, false, "", false, true⟩).env).actions ∧
    Action.createVenv ∈ (setup_venv OSName.posix ["p"]
      (setup_venv OSName.posix ["p"] ⟨false, false, false, false, "", false, true⟩).env).actions := by
  decide

/-- C3 (amended): `setup_venv` is idempotent provided the manifest file
exists: if a first call returns normally and no external interference
occurs, the second call leaves the environment state unchanged and
performs no deletion, no environment creation and no installer
invocation. -/
theorem setup_venv_idempotent_with_manifest (os : OSName) (pd : List String)
    (e : Env) (p : List String)
    (hm : e.manifestExists = true)
    (h : (setup_venv os pd e).result = Except.ok p) :
    (setup_venv os pd (setup_venv os pd e).env).env = (setup_venv os pd e).env ∧
    Action.rmtree ∉ (setup_venv os pd (setup_venv os pd e).env).actions ∧
    Action.createVenv ∉ (setup_venv os pd (setup_venv os pd e).env).actions ∧
    Action.pipInstall ∉ (setup_venv os pd (setup_venv os pd e).env).actions := by
  rcases e with ⟨d, py, b3, se, ver, mf, pip⟩
  cases d <;> cases py <;> cases b3 <;> cases se <;> cases mf <;> cases pip <;>
    simp_all [setup_venv, recreatePhase, install_requirements, create_venv, rmtreeEnv]

/-- Witness for amended C3: fresh creation with a manifest, then a
second call that only probes. -/
theorem setup_venv_idempotent_with_manifest_witness :
    (setup_venv OSName.posix ["p"]
      (setup_venv OSName.posix ["p"] ⟨false, false, false, false, "", true, true⟩).env).env =
      (setup_venv OSName.posix ["p"] ⟨false, false, false, false, "", true, true⟩).env ∧
    Action.rmtree ∉ (setup_venv OSName.posix ["p"]
      (setup_venv OSName.posix ["p"] ⟨false, false, false, false, "", true, true⟩).env).actions ∧
    Action.createVenv ∉ (setup_venv OSName.posix ["p"]
      (setup_venv OSName.posix ["p"] ⟨false, false, false, false, "", true, true⟩).env).actions ∧
    Action.pipInstall ∉ (setup_venv OSName.posix ["p"]
      (setup_venv OSName.posix ["p"] ⟨false, false, false, false, "", true, true⟩).env).actions :=
  setup_venv_idempotent_with_manifest OSName.posix ["p"]
    ⟨false, false, false, false, "", true, true⟩
    ["p", "venv", "bin", "python"] (by decide) (by decide)

/-- Counterexample for C4 as stated: an interpreter file that exists but
cannot be spawned (corrupt / non-executable) makes the probe raise an
`OSError`, which is not `subprocess.CalledProcessError`: `setup_venv`
surfaces it as an error and performs no recreation, contradicting
"interpreter missing or corrupt ... never surfaced as an error". -/
theorem probe_spawn_error_not_absorbed :
    (setup_venv OSName.posix ["p"] ⟨true, true, false, true, "", true, true⟩).result =
      Except.error PyErr.osError ∧
    Action.rmtree ∉ (setup_venv OSName.posix ["p"] ⟨true, true, false, true, "", true, true⟩).actions ∧
    Action.createVenv ∉ (setup_venv OSName.posix ["p"] ⟨true, true, false, true, "", true, true⟩).actions := by
  decide

/-- C4 (amended): when the interpreter file is missing, or the probe
subprocess runs and exits non-zero (`boto3` not importable; no
OS-level spawn error), `setup_venv` treats the environment as not
ready and performs a full recreation: any existing directory is purged
and then a fresh environment is created (the probe having run exactly
when the interpreter file was present), and the not-ready condition is
absorbed locally — the only error that can still surface is the
installer's `CalledProcessError`; afterwards directory and interpreter
both exist. -/
theorem probe_nonzero_triggers_recreation (os : OSName) (pd : List String)
    (e : Env)
    (h : e.venvPythonExists = false ∨
      (e.venvDirExists = true ∧ e.venvPythonExists = true ∧
        e.probeSpawnError = false ∧ e.boto3Importable = false)) :
    (setup_venv os pd e).actions =
      (if e.venvPythonExists then [Action.probe] else []) ++
        (if e.venvDirExists then [Action.rmtree] else []) ++
        [Action.createVenv] ++
        (if e.manifestExists then [Action.pipInstall] else []) ∧
    (setup_venv os pd e).env.venvDirExists = true ∧
    (setup_venv os pd e).env.venvPythonExists = true ∧
    (∀ c, (setup_venv os pd e).result = Except.error c →
      c = PyErr.calledProcessError) := by
  rcases e with ⟨d, py, b3, se, ver, mf, pip⟩
  cases d <;> cases py <;> cases b3 <;> cases se <;> cases mf <;> cases pip <;>
    simp_all [setup_venv, recreatePhase, install_requirements, create_venv, rmtreeEnv]

/-- Witness for amended C4: probe failure with a manifest present. -/
theorem probe_nonzero_triggers_recreation_witness :
    (setup_venv OSName.posix ["p"] ⟨true, true, false, false, "", true, true⟩).actions =
      (if (⟨true, true, false, false, "", true, true⟩ : Env).venvPythonExists then
          [Action.probe] else []) ++
        (if (⟨true, true, false, false, "", true, true⟩ : Env).venvDirExists then
          [Action.rmtree] else []) ++
        [Action.createVenv] ++
        (if (⟨true, true, false, false, "", true, true⟩ : Env).manifestExists then
          [Action.pipInstall] else []) ∧
    (setup_venv OSName.posix ["p"] ⟨true, true, false, false, "", true, true⟩).env.venvDirExists = true ∧
    (setup_venv OSName.posix ["p"] ⟨true, true, false, false, "", true, true⟩).env.venvPythonExists = true ∧
    (∀ c, (setup_venv OSName.posix ["p"] ⟨true, true, false, false, "", true, true⟩).result =
        Except.error c → c = PyErr.calledProcessError) :=
  probe_nonzero_triggers_recreation OSName.posix ["p"]
    ⟨true, true, false, false, "", true, true⟩
    (Or.inr (by decide))

/-- C5: if the environment directory exists but the interpreter file
does not, `setup_venv` recursively deletes the directory and then
creates a fresh environment (clean slate, no probe, no partial
repair); afterwards directory and interpreter both exist. -/
theorem missing_interpreter_full_recreation (os : OSName) (pd : List String)
    (e : Env)
    (hd : e.venvDirExists = true) (hpy : e.venvPythonExists = false) :
    (setup_venv os pd e).actions.take 2 = [Action.rmtree, Action.createVenv] ∧
    Action.probe ∉ (setup_venv os pd e).actions ∧
    (setup_venv os pd e).env.venvDirExists = true ∧
    (setup_venv os pd e).env.venvPythonExists = true := by
  rcases e with ⟨d, py, b3, se, ver, mf, pip⟩
  cases d <;> cases py <;> cases b3 <;> cases se <;> cases mf <;> cases pip <;>
    simp_all [setup_venv, recreatePhase, install_requirements, create_venv, rmtreeEnv]

/-- Witness for C5. -/
theorem missing_interpreter_full_recreation_witness :
    (setup_venv OSName.posix ["p"] ⟨true, false, false, false, "", true, true⟩).actions.take 2 =
      [Action.rmtree, Action.createVenv] ∧
    Action.probe ∉ (setup_venv OSName.posix ["p"] ⟨true, false, false, false, "", true, true⟩).actions ∧
    (setup_venv OSName.posix ["p"] ⟨true, false, false, false, "", true, true⟩).env.venvDirExists = true ∧
    (setup_venv OSName.posix ["p"] ⟨true, false, false, false, "", true, true⟩).env.venvPythonExists = true :=
  missing_interpreter_full_recreation OSName.posix ["p"]
    ⟨true, false, false, false, "", true, true⟩ (by decide) (by decide)

/-- Counterexample for C6 as stated: when the environment is already
ready, a run with the manifest file absent exits 0 but emits no
warning — the warning is only printed when the rebuild branch runs. -/
theorem missing_manifest_ready_no_warning :
    (mainRun OSName.posix ["p"] ⟨true, true, true, false, "1.0", false, true⟩).exitCode = 0 ∧
    ((mainRun OSName.posix ["p"] ⟨true, true, true, false, "1.0", false, true⟩).stdout.any
      isWarning) = false := by
  decide

/-- C6 (amended): if the manifest file does not exist and the rebuild
branch runs, the run still exits 0, a warning is emitted, the installer
is never invoked, and the interpreter exists in the resulting
environment. -/
theorem missing_manifest_rebuild_succeeds (os : OSName) (pd : List String)
    (e : Env)
    (hm : e.manifestExists = false)
    (hr : Action.createVenv ∈ (setup_venv os pd e).actions) :
    (mainRun os pd e).exitCode = 0 ∧
    ((mainRun os pd e).stdout.any isWarning) = true ∧
    Action.pipInstall ∉ (setup_venv os pd e).actions ∧
    (setup_venv os pd e).env.venvPythonExists = true := by
  rcases e with ⟨d, py, b3, se, ver, mf, pip⟩
  cases d <;> cases py <;> cases b3 <;> cases se <;> cases mf <;> cases pip <;>
    simp_all [mainRun, setup_venv, recreatePhase, install_requirements,
      create_venv, rmtreeEnv, isWarning]

/-- Witness for amended C6: creation from the empty state without a
manifest. -/
theorem missing_manifest_rebuild_succeeds_witness :
    (mainRun OSName.posix ["p"] ⟨false, false, false, false, "", false, true⟩).exitCode = 0 ∧
    ((mainRun OSName.posix ["p"] ⟨false, false, false, false, "", false, true⟩).stdout.any
      isWarning) = true ∧
    Action.pipInstall ∉ (setup_venv OSName.posix ["p"] ⟨false, false, false, false, "", false, true⟩).actions ∧
    (setup_venv OSName.posix ["p"] ⟨false, false, false, false, "", false, true⟩).env.venvPythonExists = true :=
  missing_manifest_rebuild_succeeds OSName.posix ["p"]
    ⟨false, false, false, false, "", false, true⟩ (by decide) (by decide)

/-- C7: every non-raising invocation of `setup_venv` returns the
interpreter path (whether or not the rebuild branch ran), and on
success the process prints the resolved interpreter path as the final
line of standard output. -/
theorem returns_interpreter_path (os : OSName) (pd : List String) (e : Env) :
    (∀ p, (setup_venv os pd e).result = Except.ok p → p = get_venv_python os pd) ∧
    ((mainRun os pd e).exitCode = 0 →
      (mainRun os pd e).stdout.getLast? =
        some (Msg.pythonExecutable (get_venv_python os pd))) := by
  rcases e with ⟨d, py, b3, se, ver, mf, pip⟩
  cases d <;> cases py <;> cases b3 <;> cases se <;> cases mf <;> cases pip <;>
    simp_all [mainRun, setup_venv, recreatePhase, install_requirements,
      create_venv, rmtreeEnv]

/-- Witness for C7 at a concrete ready environment. -/
theorem returns_interpreter_path_witness :
    ["p", "venv", "bin", "python"] = get_venv_python OSName.posix ["p"] ∧
    (mainRun OSName.posix ["p"] ⟨true, true, true, false, "1.0", true, true⟩).stdout.getLast? =
      some (Msg.pythonExecutable (get_venv_python OSName.posix ["p"])) :=
  ⟨(returns_interpreter_path OSName.posix ["p"]
      ⟨true, true, true, false, "1.0", true, true⟩).1
      ["p", "venv", "bin", "python"] (by decide),
   (returns_interpreter_path OSName.posix ["p"]
      ⟨true, true, true, false, "1.0", true, true⟩).2 (by decide)⟩

/-- C8: the interpreter path is a deterministic function of the
environment directory and the operating system family alone, with
exactly two layouts: `Scripts/python.exe` under the environment
directory on Windows (`os.name == 'nt'`), `bin/python` under it
otherwise. -/
theorem get_venv_python_layout (os : OSName) (pd : List String) :
    get_venv_python os pd =
      get_venv_dir pd ++
        (match os with
         | OSName.nt => ["Scripts", "python.exe"]
         | OSName.posix => ["bin", "python"]) := by
  cases os <;> rfl

/-- C9: only a caught `CalledProcessError` (non-zero probe exit) feeds
the recreate decision; an OS-level spawn error while the interpreter
file exists propagates out of `setup_venv` — the only action performed
is the probe attempt, nothing is recreated, and the process exits 1. -/
theorem probe_spawn_error_propagates (os : OSName) (pd : List String)
    (e : Env)
    (hd : e.venvDirExists = true) (hpy : e.venvPythonExists = true)
    (hse : e.probeSpawnError = true) :
    (setup_venv os pd e).result = Except.error PyErr.osError ∧
    (setup_venv os pd e).actions = [Action.probe] ∧
    (setup_venv os pd e).env = e ∧
    (mainRun os pd e).exitCode = 1 := by
  rcases e with ⟨d, py, b3, se, ver, mf, pip⟩
  cases d <;> cases py <;> cases b3 <;> cases se <;> cases mf <;> cases pip <;>
    simp_all [mainRun, setup_venv, recreatePhase, install_requirements,
      create_venv, rmtreeEnv]

/-- Witness for C9. -/
theorem probe_spawn_error_propagates_witness :
    (setup_venv OSName.posix ["p"] ⟨true, true, false, true, "", true, true⟩).result =
      Except.error PyErr.osError ∧
    (setup_venv OSName.posix ["p"] ⟨true, true, false, true, "", true, true⟩).actions =
      [Action.probe] ∧
    (setup_venv OSName.posix ["p"] ⟨true, true, false, true, "", true, true⟩).env =
      ⟨true, true, false, true, "", true, true⟩ ∧
    (mainRun OSName.posix ["p"] ⟨true, true, false, true, "", true, true⟩).exitCode = 1 :=
  probe_spawn_error_propagates OSName.posix ["p"]
    ⟨true, true, false, true, "", true, true⟩ (by decide) (by decide) (by decide)

/-- C10: the probe runs only during readiness determination, never
after recreation: in every trace no probe action follows a
creation action, and the probe runs at most once per invocation. -/
theorem no_probe_after_recreation (os : OSName) (pd : List String) (e : Env) :
    probeAfterCreate (setup_venv os pd e).actions = false ∧
    (setup_venv os pd e).actions.count Action.probe ≤ 1 := by
  rcases e with ⟨d, py, b3, se, ver, mf, pip⟩
  cases d <;> cases py <;> cases b3 <;> cases se <;> cases mf <;> cases pip <;>
    simp_all [setup_venv, recreatePhase, install_requirements, create_venv,
      rmtreeEnv, probeAfterCreate, List.count, List.countP] <;> decide

end SetupVenv
